import Mathlib

/-!
Shallow embedding of the focal-loss-for-LightGBM notebook
(`examples/Lightgbm_with_Focal_Loss.ipynb`).

The notebook defines four functions over 1-D numpy arrays of reals:

* `focal_loss_lgb(y_pred, dtrain, alpha, gamma)` — the training objective:
  an inner closure `fl(x, t)` computes the per-example focal loss, and
  `scipy.misc.derivative` (three-point central differences, `dx = 1e-6`,
  `n = 1` and `n = 2`) turns it into a gradient vector and a Hessian vector.
* `focal_loss_lgb_eval_error(y_pred, dtrain, alpha, gamma)` — the evaluation
  metric: computes the per-example loss vector and returns the triple
  `("focal_loss", mean loss, False)`.
* `focal_loss_lgb_sk` / `focal_loss_lgb_eval_error_sk` — the same two
  functions for the sklearn API, with `y_true` passed directly (and first)
  instead of inside a `lightgbm.Dataset`.

Modelling conventions:

* numpy arrays of reals are `List ℝ`; a `lightgbm.Dataset` is a structure
  carrying its `label` list.
* Combining two 1-D arrays elementwise follows numpy broadcasting for 1-D
  operands: equal lengths combine pointwise, a length-1 operand is broadcast
  against the other, and any other shape pair raises `ValueError`; raising is
  modelled by `Except String`.
* `np.mean` of an empty array is undefined (numpy emits a warning and yields
  `NaN`); the mean is therefore modelled as `Option ℝ`, `none` standing for
  that undefined value.
* numpy `**` on a real exponent is modelled by `Real.rpow` (the notebook only
  exercises it on bases in `(0,1)` when labels are valid).
-/

noncomputable section

namespace FocalLoss

/-- `p = 1/(1+np.exp(-x))`, the sigmoid transform used throughout the
notebook.  No clamping of the result is performed anywhere in the source. -/
def sigmoid (x : ℝ) : ℝ := 1 / (1 + Real.exp (-x))

/-- The per-example focal-loss expression shared verbatim by all four
notebook functions, as a function of the label `t` and the already-computed
sigmoid output `p`:
`-( a*t + (1-a)*(1-t) ) * (( 1 - ( t*p + (1-t)*(1-p)) )**g) * ( t*np.log(p)+(1-t)*np.log(1-p) )`. -/
def lossExpr (alpha gamma t p : ℝ) : ℝ :=
  -(alpha * t + (1 - alpha) * (1 - t)) *
    (1 - (t * p + (1 - t) * (1 - p))) ^ gamma *
    (t * Real.log p + (1 - t) * Real.log (1 - p))

/-- The inner closure `fl(x, t)` of `focal_loss_lgb`: computes
`p = 1/(1+np.exp(-x))` and then the loss expression. -/
def fl (alpha gamma x t : ℝ) : ℝ := lossExpr alpha gamma t (sigmoid x)

/-- `scipy.misc.derivative(f, x0, dx, n=1, order=3)`: weights
`[-1/2, 0, 1/2]` over the points `x0 - dx, x0, x0 + dx`, divided by `dx`. -/
def scipyDerivative1 (f : ℝ → ℝ) (x0 dx : ℝ) : ℝ :=
  (-(1 / 2) * f (x0 - dx) + (1 / 2) * f (x0 + dx)) / dx

/-- `scipy.misc.derivative(f, x0, dx, n=2, order=3)`: weights `[1, -2, 1]`
over the points `x0 - dx, x0, x0 + dx`, divided by `dx ** 2`. -/
def scipyDerivative2 (f : ℝ → ℝ) (x0 dx : ℝ) : ℝ :=
  (1 * f (x0 - dx) + -2 * f x0 + 1 * f (x0 + dx)) / dx ^ 2

/-- numpy broadcasting of a scalar binary expression over two 1-D arrays:
equal lengths combine pointwise; a length-1 operand is broadcast against the
other; any other pair of lengths raises `ValueError`. -/
def npBroadcast (f : ℝ → ℝ → ℝ) (xs ys : List ℝ) : Except String (List ℝ) :=
  if xs.length = ys.length then Except.ok (List.zipWith f xs ys)
  else if xs.length = 1 then Except.ok (ys.map (f xs.headI))
  else if ys.length = 1 then Except.ok (xs.map (fun x => f x ys.headI))
  else Except.error "operands could not be broadcast together"

/-- `np.mean`: the arithmetic mean of a 1-D array; on an empty array numpy
emits a warning and yields `NaN`, modelled here as `none`. -/
def npMean (xs : List ℝ) : Option ℝ :=
  if xs.isEmpty then none else some (xs.sum / xs.length)

/-- The slice of a `lightgbm.Dataset` the notebook reads: its `label`. -/
structure Dataset where
  label : List ℝ

/-- The step `dx = 1e-6` passed to `scipy.misc.derivative`. -/
def dxStep : ℝ := 1 / 1000000

/-- `focal_loss_lgb(y_pred, dtrain, alpha, gamma)`: reads `y_true` from the
dataset, and returns `derivative(partial_fl, y_pred, n=1, dx=1e-6)` and
`derivative(partial_fl, y_pred, n=2, dx=1e-6)`.  `partial_fl` shifts the
whole `y_pred` array and evaluates `fl` on it against `y_true`, so each
output entry is the scipy central difference of `fl(·, t_i)` at `y_pred_i`,
with numpy broadcasting pairing the two arrays. -/
def focal_loss_lgb (y_pred : List ℝ) (dtrain : Dataset) (alpha gamma : ℝ) :
    Except String (List ℝ × List ℝ) := do
  let y_true := dtrain.label
  let grad ← npBroadcast
    (fun x t => scipyDerivative1 (fun z => fl alpha gamma z t) x dxStep) y_pred y_true
  let hess ← npBroadcast
    (fun x t => scipyDerivative2 (fun z => fl alpha gamma z t) x dxStep) y_pred y_true
  return (grad, hess)

/-- The per-example loss array computed inside the evaluation functions:
`p = 1/(1+np.exp(-y_pred))` followed by the loss expression, with numpy
broadcasting pairing `y_true` with `p`. -/
def lossArray (alpha gamma : ℝ) (y_pred y_true : List ℝ) : Except String (List ℝ) :=
  npBroadcast (fun t p => lossExpr alpha gamma t p) y_true (y_pred.map sigmoid)

/-- `focal_loss_lgb_eval_error(y_pred, dtrain, alpha, gamma)`: returns
`('focal_loss', np.mean(loss), False)`. -/
def focal_loss_lgb_eval_error (y_pred : List ℝ) (dtrain : Dataset) (alpha gamma : ℝ) :
    Except String (String × Option ℝ × Bool) := do
  let loss ← lossArray alpha gamma y_pred dtrain.label
  return ("focal_loss", npMean loss, false)

/-- `focal_loss_lgb_sk(y_true, y_pred, alpha, gamma)`: the sklearn-API
variant; identical body with `y_true` passed directly instead of read from a
dataset. -/
def focal_loss_lgb_sk (y_true y_pred : List ℝ) (alpha gamma : ℝ) :
    Except String (List ℝ × List ℝ) := do
  let grad ← npBroadcast
    (fun x t => scipyDerivative1 (fun z => fl alpha gamma z t) x dxStep) y_pred y_true
  let hess ← npBroadcast
    (fun x t => scipyDerivative2 (fun z => fl alpha gamma z t) x dxStep) y_pred y_true
  return (grad, hess)

/-- `focal_loss_lgb_eval_error_sk(y_true, y_pred, alpha, gamma)`: the
sklearn-API variant of the evaluation function. -/
def focal_loss_lgb_eval_error_sk (y_true y_pred : List ℝ) (alpha gamma : ℝ) :
    Except String (String × Option ℝ × Bool) := do
  let loss ← lossArray alpha gamma y_pred y_true
  return ("focal_loss", npMean loss, false)

/-- The closed-form per-example focal loss exactly as the spec writes it
(spec section 4.1): `modulating_factor`, `class_weight`, `cross_entropy`,
and `loss(x,t) = -class_weight * modulating_factor * cross_entropy`
with `p = sigmoid(x)`. -/
def lossSpec (alpha gamma x t : ℝ) : ℝ :=
  let p := sigmoid x
  let modulating_factor := (1 - (t * p + (1 - t) * (1 - p))) ^ gamma
  let class_weight := alpha * t + (1 - alpha) * (1 - t)
  let cross_entropy := t * Real.log p + (1 - t) * Real.log (1 - p)
  let loss := -class_weight * modulating_factor * cross_entropy
  loss

/-- The textbook central-difference first-derivative estimator the spec
refers to: `(f(x+h) - f(x-h)) / (2h)`. -/
def centralDiff1 (f : ℝ → ℝ) (x h : ℝ) : ℝ := (f (x + h) - f (x - h)) / (2 * h)

/-- The textbook central-difference second-derivative estimator the spec
refers to: `(f(x+h) - 2 f(x) + f(x-h)) / h²`. -/
def centralDiff2 (f : ℝ → ℝ) (x h : ℝ) : ℝ :=
  (f (x + h) - 2 * f x + f (x - h)) / h ^ 2

/-- The alpha-weighted binary cross-entropy named by the gamma = 0 claim:
`-(alpha*t + (1-alpha)*(1-t)) * (t*log(p) + (1-t)*log(1-p))`, `p = sigmoid(x)`. -/
def weightedCE (alpha x t : ℝ) : ℝ :=
  -(alpha * t + (1 - alpha) * (1 - t)) *
    (t * Real.log (sigmoid x) + (1 - t) * Real.log (1 - sigmoid x))

lemma sigmoid_pos (x : ℝ) : 0 < sigmoid x := by
  unfold sigmoid
  positivity

lemma sigmoid_lt_one (x : ℝ) : sigmoid x < 1 := by
  unfold sigmoid
  rw [div_lt_one (by positivity)]
  linarith [Real.exp_pos (-x)]

lemma sigmoid_strict_mono {x y : ℝ} (h : x < y) : sigmoid x < sigmoid y := by
  unfold sigmoid
  apply one_div_lt_one_div_of_lt (by positivity)
  have : Real.exp (-y) < Real.exp (-x) := Real.exp_lt_exp.mpr (by linarith)
  linarith

lemma fl_eq_lossSpec (alpha gamma x t : ℝ) : fl alpha gamma x t = lossSpec alpha gamma x t := rfl

/-- Claim C6: the dataset-bundle-first adapters (`focal_loss_lgb`,
`focal_loss_lgb_eval_error`) and the labels-first sklearn adapters
(`focal_loss_lgb_sk`, `focal_loss_lgb_eval_error_sk`) return identical
results on the same predictions, labels, alpha and gamma. -/
theorem adapters_agree (y_pred y_true : List ℝ) (alpha gamma : ℝ) :
    focal_loss_lgb y_pred ⟨y_true⟩ alpha gamma =
        focal_loss_lgb_sk y_true y_pred alpha gamma ∧
      focal_loss_lgb_eval_error y_pred ⟨y_true⟩ alpha gamma =
        focal_loss_lgb_eval_error_sk y_true y_pred alpha gamma :=
  ⟨rfl, rfl⟩

/-- Claim C10: on empty prediction and label vectors the evaluation function
raises no error: it returns the usual triple, whose value component is the
undefined mean of zero elements (numpy's NaN, modelled as `none`). -/
theorem eval_empty_returns_undefined_mean (alpha gamma : ℝ) :
    focal_loss_lgb_eval_error [] ⟨[]⟩ alpha gamma =
      Except.ok ("focal_loss", none, false) := rfl

/-- Claim C8: with gamma = 0 the per-example focal loss collapses to the
alpha-weighted binary cross-entropy, for labels in {0,1}, alpha in [0,1] and
every score x. -/
theorem fl_gamma_zero_eq_weightedCE (x t alpha : ℝ) (ht : t = 0 ∨ t = 1)
    (ha : 0 ≤ alpha ∧ alpha ≤ 1) : fl alpha 0 x t = weightedCE alpha x t := by
  unfold fl lossExpr weightedCE
  rw [Real.rpow_zero]
  ring

/-- Witness for C8 at x = 2, t = 1, alpha = 1/4. -/
theorem fl_gamma_zero_eq_weightedCE_witness :
    fl (1/4) 0 2 1 = weightedCE (1/4) 2 1 :=
  fl_gamma_zero_eq_weightedCE 2 1 (1/4) (Or.inr rfl) (by norm_num)

/-- Claim C5: for labels in {0,1}, alpha in (0,1), gamma at least 0 and any
finite score, the per-example focal loss is non-negative. -/
theorem fl_nonneg (x t alpha gamma : ℝ) (ht : t = 0 ∨ t = 1)
    (ha : 0 < alpha ∧ alpha < 1) (hg : 0 ≤ gamma) : 0 ≤ fl alpha gamma x t := by
  have hp0 := sigmoid_pos x
  have hp1 := sigmoid_lt_one x
  rcases ht with ht | ht <;> subst ht <;> unfold fl lossExpr
  · rw [show (1:ℝ) - ((0:ℝ) * sigmoid x + (1 - 0) * (1 - sigmoid x)) = sigmoid x from by ring]
    have hB : 0 < sigmoid x ^ gamma := Real.rpow_pos_of_pos hp0 gamma
    have hC : Real.log (1 - sigmoid x) < 0 :=
      Real.log_neg (by linarith) (by linarith)
    nlinarith [mul_nonneg (mul_nonneg (by linarith : (0:ℝ) ≤ 1 - alpha) hB.le)
      (by linarith : (0:ℝ) ≤ -Real.log (1 - sigmoid x))]
  · rw [show (1:ℝ) - ((1:ℝ) * sigmoid x + (1 - 1) * (1 - sigmoid x)) = 1 - sigmoid x from by ring]
    have hB : 0 < (1 - sigmoid x) ^ gamma := Real.rpow_pos_of_pos (by linarith) gamma
    have hC : Real.log (sigmoid x) < 0 := Real.log_neg hp0 hp1
    nlinarith [mul_nonneg (mul_nonneg ha.1.le hB.le)
      (by linarith : (0:ℝ) ≤ -Real.log (sigmoid x))]

/-- Witness for C5 at x = 0, t = 1, alpha = 1/4, gamma = 2. -/
theorem fl_nonneg_witness : 0 ≤ fl (1/4) 2 0 1 :=
  fl_nonneg 0 1 (1/4) 2 (Or.inr rfl) (by norm_num) (by norm_num)

lemma sigmoid_zero : sigmoid 0 = 1 / 2 := by
  unfold sigmoid
  rw [neg_zero, Real.exp_zero]
  norm_num

lemma npBroadcast_eq_len {f : ℝ → ℝ → ℝ} {xs ys : List ℝ} (h : xs.length = ys.length) :
    npBroadcast f xs ys = Except.ok (List.zipWith f xs ys) := by
  unfold npBroadcast
  rw [if_pos h]

lemma npBroadcast_mismatch {f : ℝ → ℝ → ℝ} {xs ys : List ℝ} (h : xs.length ≠ ys.length)
    (hx : xs.length ≠ 1) (hy : ys.length ≠ 1) :
    npBroadcast f xs ys = Except.error "operands could not be broadcast together" := by
  unfold npBroadcast
  rw [if_neg h, if_neg hx, if_neg hy]

lemma lossArray_eq_zipWith_lossSpec (alpha gamma : ℝ) :
    ∀ (y_pred labels : List ℝ),
      List.zipWith (fun t p => lossExpr alpha gamma t p) labels (y_pred.map sigmoid) =
        List.zipWith (fun x t => lossSpec alpha gamma x t) y_pred labels
  | [], [] => rfl
  | [], _ :: _ => rfl
  | _ :: _, [] => rfl
  | x :: xs, t :: ts => by
    rw [List.map_cons, List.zipWith_cons_cons, List.zipWith_cons_cons,
      lossArray_eq_zipWith_lossSpec alpha gamma xs ts]
    rfl

lemma lossArray_ok {alpha gamma : ℝ} {y_pred labels : List ℝ}
    (h : y_pred.length = labels.length) :
    lossArray alpha gamma y_pred labels =
      Except.ok (List.zipWith (fun x t => lossSpec alpha gamma x t) y_pred labels) := by
  unfold lossArray
  rw [npBroadcast_eq_len (by rw [List.length_map]; exact h.symm),
    lossArray_eq_zipWith_lossSpec]

/-- Claim C1 (code bug): the source contains no clamping of `p`.  `sigmoid 50`
lies strictly between `1 - 2^(-53)` and `1`, i.e. inside the half-ulp
interval that IEEE-754 binary64 rounds to exactly `1.0`; the unclamped float
evaluation of the loss at score `x = 50` with label `t = 1` therefore
computes `np.log(1 - p) = log 0 = -inf` and the cross-entropy term
`t*log(p) + (1-t)*log(1-p) = 0 + 0*(-inf) = NaN`, which propagates to the
loss, the evaluation mean, and the central-difference gradient and Hessian. -/
theorem sigmoid_extreme_score_in_rounding_region_of_one :
    1 - (2 : ℝ) ^ (-(53 : ℤ)) < sigmoid 50 ∧ sigmoid 50 < 1 := by
  have hE : 0 < Real.exp (-50) := Real.exp_pos _
  have hexp : (2 : ℝ) ^ (53 : ℕ) < Real.exp 50 := by
    have h27 : (27 / 10 : ℝ) < Real.exp 1 :=
      lt_trans (by norm_num) Real.exp_one_gt_d9
    have h50 : Real.exp 50 = Real.exp 1 ^ (50 : ℕ) := by
      rw [← Real.exp_nat_mul]
      norm_num
    have hpow : (27 / 10 : ℝ) ^ (50 : ℕ) < Real.exp 1 ^ (50 : ℕ) :=
      pow_lt_pow_left₀ h27 (by norm_num) (by norm_num)
    have hnum : (2 : ℝ) ^ (53 : ℕ) < (27 / 10 : ℝ) ^ (50 : ℕ) := by norm_num
    rw [h50]
    exact lt_trans hnum hpow
  have hc : Real.exp (-50) < (2 : ℝ) ^ (-(53 : ℤ)) := by
    rw [Real.exp_neg, zpow_neg,
      show ((2 : ℝ) ^ (53 : ℤ)) = (2 : ℝ) ^ (53 : ℕ) by norm_num]
    exact inv_lt_inv_of_lt (by positivity) hexp
  have hc0 : (0 : ℝ) < (2 : ℝ) ^ (-(53 : ℤ)) := by positivity
  constructor
  · unfold sigmoid
    rw [lt_div_iff (by positivity)]
    nlinarith [mul_pos hc0 hE]
  · exact sigmoid_lt_one 50

/-- Counterexample to claim C2: predictions `[0,0,0]` with label vector `[2]`
(mismatched lengths, silently broadcast), label value `2` outside {0,1},
`alpha = 2` outside [0,1] and `gamma = -1 < 0`, yet the evaluation function
raises nothing and returns an ordinary metric triple. -/
theorem eval_accepts_invalid_input_silently :
    focal_loss_lgb_eval_error [0, 0, 0] ⟨[2]⟩ 2 (-1) =
      Except.ok ("focal_loss", some (10 * Real.log 2), false) := by
  have hp : sigmoid 0 = 1 / 2 := sigmoid_zero
  have hloss : lossExpr 2 (-1) 2 (1 / 2) = 10 * Real.log 2 := by
    unfold lossExpr
    rw [show (1 : ℝ) - ((2 : ℝ) * (1 / 2) + (1 - 2) * (1 - 1 / 2)) = 1 / 2 by norm_num,
      show ((1 : ℝ) / 2) ^ (-1 : ℝ) = 2 by
        rw [show (-1 : ℝ) = ((-1 : ℤ) : ℝ) by norm_num, Real.rpow_intCast]
        norm_num,
      show Real.log (1 - 1 / 2 : ℝ) = Real.log (1 / 2) by norm_num,
      one_div, Real.log_inv]
    ring
  unfold focal_loss_lgb_eval_error lossArray npBroadcast
  simp only [List.map_cons, List.map_nil, hp, List.length_cons, List.length_nil]
  norm_num
  unfold npMean
  simp only [hloss, List.isEmpty_cons, List.sum_cons, List.sum_nil, List.length_cons,
    List.length_nil, Bool.false_eq_true, if_false]
  norm_num
  ring

/-- Claim C2 amended: the code performs no input validation.  When the two
vectors have equal length, every call returns a normal result no matter what
the label values, alpha or gamma are; an error arises only from the array
library's broadcasting rule, i.e. exactly when the lengths differ and neither
operand has length 1 (a length-1 operand is broadcast silently). -/
theorem no_input_validation (y_pred labels : List ℝ) (alpha gamma : ℝ) :
    (y_pred.length = labels.length →
      (∃ gh, focal_loss_lgb y_pred ⟨labels⟩ alpha gamma = Except.ok gh) ∧
      (∃ v, focal_loss_lgb_eval_error y_pred ⟨labels⟩ alpha gamma =
        Except.ok ("focal_loss", v, false))) ∧
    (y_pred.length ≠ labels.length → y_pred.length ≠ 1 → labels.length ≠ 1 →
      focal_loss_lgb y_pred ⟨labels⟩ alpha gamma =
        Except.error "operands could not be broadcast together" ∧
      focal_loss_lgb_eval_error y_pred ⟨labels⟩ alpha gamma =
        Except.error "operands could not be broadcast together") := by
  constructor
  · intro h
    constructor
    · exact ⟨_, by
        simp only [focal_loss_lgb]
        rw [npBroadcast_eq_len h, npBroadcast_eq_len h]
        rfl⟩
    · exact ⟨_, by
        unfold focal_loss_lgb_eval_error lossArray
        rw [npBroadcast_eq_len (by rw [List.length_map]; exact h.symm)]
        rfl⟩
  · intro h h1 h2
    have hmap : (y_pred.map sigmoid).length = y_pred.length := List.length_map _ _
    constructor
    · simp only [focal_loss_lgb]
      rw [npBroadcast_mismatch h h1 h2]
      rfl
    · unfold focal_loss_lgb_eval_error lossArray
      rw [npBroadcast_mismatch (by rw [hmap]; exact fun he => h he.symm) h2
        (by rw [hmap]; exact h1)]
      rfl

/-- Witness for the amended C2: a valid-shaped call with invalid values
returns normally, and a 3-vs-2 length mismatch returns the broadcast error. -/
theorem no_input_validation_witness :
    ((∃ gh, focal_loss_lgb [0] ⟨[2]⟩ 2 (-1) = Except.ok gh) ∧
      (∃ v, focal_loss_lgb_eval_error [0] ⟨[2]⟩ 2 (-1) =
        Except.ok ("focal_loss", v, false))) ∧
    (focal_loss_lgb [0, 0, 0] ⟨[1, 1]⟩ (1 / 4) 2 =
        Except.error "operands could not be broadcast together" ∧
      focal_loss_lgb_eval_error [0, 0, 0] ⟨[1, 1]⟩ (1 / 4) 2 =
        Except.error "operands could not be broadcast together") :=
  ⟨(no_input_validation [0] [2] 2 (-1)).1 rfl,
    (no_input_validation [0, 0, 0] [1, 1] (1 / 4) 2).2 (by norm_num) (by norm_num)
      (by norm_num)⟩

/-- Claim C3: on a non-empty prediction vector and an equal-length {0,1}
label vector, the evaluation function returns the fixed metric name
"focal_loss", the arithmetic mean of the closed-form per-example losses
`lossSpec`, and `higher_is_better = false`. -/
theorem eval_is_mean_of_spec_loss (y_pred labels : List ℝ) (alpha gamma : ℝ)
    (hne : y_pred ≠ []) (hlen : y_pred.length = labels.length)
    (hlab : ∀ t ∈ labels, t = 0 ∨ t = 1) :
    focal_loss_lgb_eval_error y_pred ⟨labels⟩ alpha gamma =
      Except.ok ("focal_loss",
        some ((List.zipWith (fun x t => lossSpec alpha gamma x t) y_pred labels).sum /
          y_pred.length),
        false) := by
  have hL : (List.zipWith (fun x t => lossSpec alpha gamma x t) y_pred labels).length =
      y_pred.length := by
    rw [List.length_zipWith, hlen, min_self]
  have hLne : List.zipWith (fun x t => lossSpec alpha gamma x t) y_pred labels ≠ [] := by
    apply List.ne_nil_of_length_pos
    rw [hL]
    exact List.length_pos.mpr hne
  unfold focal_loss_lgb_eval_error
  rw [lossArray_ok hlen]
  show Except.ok ("focal_loss",
    npMean (List.zipWith (fun x t => lossSpec alpha gamma x t) y_pred labels), false) = _
  unfold npMean
  rw [if_neg (by simpa [List.isEmpty_iff] using hLne), hL]

/-- Witness for C3 on predictions `[0,0,0]`, labels `[1,0,1]`,
alpha = 1/4, gamma = 2. -/
theorem eval_is_mean_of_spec_loss_witness :
    focal_loss_lgb_eval_error [0, 0, 0] ⟨[1, 0, 1]⟩ (1 / 4) 2 =
      Except.ok ("focal_loss",
        some ((List.zipWith (fun x t => lossSpec (1 / 4) 2 x t) [0, 0, 0] [1, 0, 1]).sum /
          (([0, 0, 0] : List ℝ).length)),
        false) :=
  eval_is_mean_of_spec_loss [0, 0, 0] [1, 0, 1] (1 / 4) 2 (by simp) rfl
    (by intro t ht; fin_cases ht <;> norm_num)

lemma fl_t_one (alpha gamma x : ℝ) :
    fl alpha gamma x 1 = alpha * (1 - sigmoid x) ^ gamma * (-Real.log (sigmoid x)) := by
  unfold fl lossExpr
  rw [show (1 : ℝ) - ((1 : ℝ) * sigmoid x + (1 - 1) * (1 - sigmoid x)) = 1 - sigmoid x by ring]
  ring

lemma fl_t_zero (alpha gamma x : ℝ) :
    fl alpha gamma x 0 = (1 - alpha) * sigmoid x ^ gamma * (-Real.log (1 - sigmoid x)) := by
  unfold fl lossExpr
  rw [show (1 : ℝ) - ((0 : ℝ) * sigmoid x + (1 - 0) * (1 - sigmoid x)) = sigmoid x by ring]
  ring

/-- Claim C4: the gradient and Hessian entries returned by the objective
agree (here: exactly, because the source computes precisely these central
differences, hence certainly within 1e-4) with the central-difference first-
and second-derivative estimators of the closed-form loss `lossSpec`, for any
label in {0,1}, score in [-10,10], alpha in (0,1) and gamma at least 0. -/
theorem objective_matches_central_difference (x t alpha gamma : ℝ)
    (ht : t = 0 ∨ t = 1) (hx : -10 ≤ x ∧ x ≤ 10)
    (ha : 0 < alpha ∧ alpha < 1) (hg : 0 ≤ gamma) :
    ∃ gr he, focal_loss_lgb [x] ⟨[t]⟩ alpha gamma = Except.ok ([gr], [he]) ∧
      |gr - centralDiff1 (fun z => lossSpec alpha gamma z t) x dxStep| ≤ 1 / 10000 ∧
      |he - centralDiff2 (fun z => lossSpec alpha gamma z t) x dxStep| ≤ 1 / 10000 := by
  have hdx : dxStep ≠ 0 := by norm_num [dxStep]
  refine ⟨scipyDerivative1 (fun z => fl alpha gamma z t) x dxStep,
    scipyDerivative2 (fun z => fl alpha gamma z t) x dxStep, rfl, ?_, ?_⟩
  · have h1 : scipyDerivative1 (fun z => fl alpha gamma z t) x dxStep =
        centralDiff1 (fun z => lossSpec alpha gamma z t) x dxStep := by
      unfold scipyDerivative1 centralDiff1
      simp only [← fl_eq_lossSpec]
      field_simp
      ring
    rw [h1, sub_self, abs_zero]
    norm_num
  · have h2 : scipyDerivative2 (fun z => fl alpha gamma z t) x dxStep =
        centralDiff2 (fun z => lossSpec alpha gamma z t) x dxStep := by
      unfold scipyDerivative2 centralDiff2
      simp only [← fl_eq_lossSpec]
      ring
    rw [h2, sub_self, abs_zero]
    norm_num

/-- Witness for C4 at x = 0, t = 1, alpha = 1/4, gamma = 2. -/
theorem objective_matches_central_difference_witness :
    ∃ gr he, focal_loss_lgb [0] ⟨[1]⟩ (1 / 4) 2 = Except.ok ([gr], [he]) ∧
      |gr - centralDiff1 (fun z => lossSpec (1 / 4) 2 z 1) 0 dxStep| ≤ 1 / 10000 ∧
      |he - centralDiff2 (fun z => lossSpec (1 / 4) 2 z 1) 0 dxStep| ≤ 1 / 10000 :=
  objective_matches_central_difference 0 1 (1 / 4) 2 (Or.inr rfl) (by norm_num)
    (by norm_num) (by norm_num)

lemma fl_one_strictAnti {x y : ℝ} (h : x < y) : fl (1 / 4) 2 y 1 < fl (1 / 4) 2 x 1 := by
  rw [fl_t_one, fl_t_one]
  have hpx0 := sigmoid_pos x
  have hpy0 := sigmoid_pos y
  have hpy1 := sigmoid_lt_one y
  have hpq := sigmoid_strict_mono h
  rw [show (2 : ℝ) = ((2 : ℕ) : ℝ) by norm_num, Real.rpow_natCast, Real.rpow_natCast]
  have h1 : (1 - sigmoid y) ^ (2 : ℕ) < (1 - sigmoid x) ^ (2 : ℕ) :=
    pow_lt_pow_left₀ (by linarith) (by linarith) (by norm_num)
  have h2 : -Real.log (sigmoid y) < -Real.log (sigmoid x) := by
    have := Real.log_lt_log hpx0 hpq
    linarith
  have h3 : 0 < -Real.log (sigmoid y) := by
    have := Real.log_neg hpy0 hpy1
    linarith
  have h4 : (0 : ℝ) ≤ (1 - sigmoid y) ^ (2 : ℕ) := by positivity
  have hkey := mul_lt_mul'' h1 h2 h4 h3.le
  linarith [hkey]

lemma fl_zero_strictMono {x y : ℝ} (h : x < y) : fl (1 / 4) 2 x 0 < fl (1 / 4) 2 y 0 := by
  rw [fl_t_zero, fl_t_zero]
  have hpx0 := sigmoid_pos x
  have hpx1 := sigmoid_lt_one x
  have hpy1 := sigmoid_lt_one y
  have hpq := sigmoid_strict_mono h
  rw [show (2 : ℝ) = ((2 : ℕ) : ℝ) by norm_num, Real.rpow_natCast, Real.rpow_natCast]
  have h1 : sigmoid x ^ (2 : ℕ) < sigmoid y ^ (2 : ℕ) :=
    pow_lt_pow_left₀ hpq hpx0.le (by norm_num)
  have h2 : -Real.log (1 - sigmoid x) < -Real.log (1 - sigmoid y) := by
    have := Real.log_lt_log (show (0 : ℝ) < 1 - sigmoid y by linarith)
      (show (1 : ℝ) - sigmoid y < 1 - sigmoid x by linarith)
    linarith
  have h3 : 0 < -Real.log (1 - sigmoid x) := by
    have := Real.log_neg (by linarith : (0 : ℝ) < 1 - sigmoid x) (by linarith)
    linarith
  have h4 : (0 : ℝ) ≤ sigmoid x ^ (2 : ℕ) := by positivity
  have hkey := mul_lt_mul'' h1 h2 h4 h3.le
  linarith [hkey]

/-- Claim C7: on predictions [0,0,0], labels [1,0,1], alpha = 0.25,
gamma = 2: every example has p = sigmoid 0 = 1/2; the two t = 1 entries share
the per-example loss log 2 / 16, which differs from the t = 0 entry's loss
3 log 2 / 16; and the returned gradient is negative at the t = 1 positions
(pushing those scores up) and positive at the t = 0 position (pushing it
down). -/
theorem end_to_end_scenario :
    sigmoid 0 = 1 / 2 ∧
    fl (1 / 4) 2 0 1 = Real.log 2 / 16 ∧
    fl (1 / 4) 2 0 0 = 3 * Real.log 2 / 16 ∧
    fl (1 / 4) 2 0 1 ≠ fl (1 / 4) 2 0 0 ∧
    ∃ g1 g0 h1 h0,
      focal_loss_lgb [0, 0, 0] ⟨[1, 0, 1]⟩ (1 / 4) 2 =
        Except.ok ([g1, g0, g1], [h1, h0, h1]) ∧
      g1 < 0 ∧ 0 < g0 := by
  have hσ : sigmoid 0 = 1 / 2 := sigmoid_zero
  have hsq : ((1 : ℝ) / 2) ^ (2 : ℝ) = 1 / 4 := by
    rw [show (2 : ℝ) = ((2 : ℕ) : ℝ) by norm_num, Real.rpow_natCast]
    norm_num
  have hlg : Real.log ((1 : ℝ) / 2) = -Real.log 2 := by
    rw [one_div, Real.log_inv]
  have hl1 : fl (1 / 4) 2 0 1 = Real.log 2 / 16 := by
    rw [fl_t_one, hσ, show (1 : ℝ) - 1 / 2 = 1 / 2 by norm_num, hsq, hlg]
    ring
  have hl0 : fl (1 / 4) 2 0 0 = 3 * Real.log 2 / 16 := by
    rw [fl_t_zero, hσ, show (1 : ℝ) - 1 / 2 = 1 / 2 by norm_num, hsq, hlg]
    ring
  have hlog : 0 < Real.log 2 := Real.log_pos (by norm_num)
  have hstep : (0 : ℝ) < dxStep := by norm_num [dxStep]
  have hg1 : scipyDerivative1 (fun z => fl (1 / 4) 2 z 1) 0 dxStep < 0 := by
    unfold scipyDerivative1
    have hlt : fl (1 / 4) 2 (0 + dxStep) 1 < fl (1 / 4) 2 (0 - dxStep) 1 :=
      fl_one_strictAnti (by linarith)
    apply div_neg_of_neg_of_pos _ hstep
    linarith
  have hg0 : 0 < scipyDerivative1 (fun z => fl (1 / 4) 2 z 0) 0 dxStep := by
    unfold scipyDerivative1
    have hlt : fl (1 / 4) 2 (0 - dxStep) 0 < fl (1 / 4) 2 (0 + dxStep) 0 :=
      fl_zero_strictMono (by linarith)
    apply div_pos _ hstep
    linarith
  refine ⟨hσ, hl1, hl0, ?_, 
    scipyDerivative1 (fun z => fl (1 / 4) 2 z 1) 0 dxStep,
    scipyDerivative1 (fun z => fl (1 / 4) 2 z 0) 0 dxStep,
    scipyDerivative2 (fun z => fl (1 / 4) 2 z 1) 0 dxStep,
    scipyDerivative2 (fun z => fl (1 / 4) 2 z 0) 0 dxStep, rfl, hg1, hg0⟩
  rw [hl1, hl0]
  intro hcon
  linarith

lemma zipWith_get (f : ℝ → ℝ → ℝ) :
    ∀ (xs ys : List ℝ) (i : ℕ) (hx : i < xs.length) (hy : i < ys.length),
      (List.zipWith f xs ys)[i]? = some (f (xs.get ⟨i, hx⟩) (ys.get ⟨i, hy⟩))
  | _ :: _, _ :: _, 0, _, _ => by simp
  | x :: xs, y :: ys, i + 1, hx, hy => by
    simp only [List.zipWith_cons_cons, List.getElem?_cons_succ]
    exact zipWith_get f xs ys i (Nat.lt_of_succ_lt_succ hx) (Nat.lt_of_succ_lt_succ hy)
  | [], _, i, hx, _ => absurd hx (by simp)
  | _ :: _, [], i, _, hy => absurd hy (by simp)

/-- Claim C9: on equal-length vectors the i-th gradient, Hessian and
per-example loss of the vectorized computation equal the results of running
the objective and the loss array on the single-element vectors holding only
the i-th prediction and label. -/
theorem vectorized_matches_per_example (y_pred labels : List ℝ) (alpha gamma : ℝ)
    (hlen : y_pred.length = labels.length) (i : ℕ) (hi : i < y_pred.length) :
    ∃ grad hess losses g1 h1 l1,
      focal_loss_lgb y_pred ⟨labels⟩ alpha gamma = Except.ok (grad, hess) ∧
      lossArray alpha gamma y_pred labels = Except.ok losses ∧
      focal_loss_lgb [y_pred.get ⟨i, hi⟩] ⟨[labels.get ⟨i, hlen ▸ hi⟩]⟩ alpha gamma =
        Except.ok ([g1], [h1]) ∧
      lossArray alpha gamma [y_pred.get ⟨i, hi⟩] [labels.get ⟨i, hlen ▸ hi⟩] =
        Except.ok [l1] ∧
      grad[i]? = some g1 ∧ hess[i]? = some h1 ∧ losses[i]? = some l1 := by
  have hil : i < labels.length := hlen ▸ hi
  refine ⟨List.zipWith
      (fun x t => scipyDerivative1 (fun z => fl alpha gamma z t) x dxStep) y_pred labels,
    List.zipWith
      (fun x t => scipyDerivative2 (fun z => fl alpha gamma z t) x dxStep) y_pred labels,
    List.zipWith (fun x t => lossSpec alpha gamma x t) y_pred labels,
    scipyDerivative1 (fun z => fl alpha gamma z (labels.get ⟨i, hil⟩))
      (y_pred.get ⟨i, hi⟩) dxStep,
    scipyDerivative2 (fun z => fl alpha gamma z (labels.get ⟨i, hil⟩))
      (y_pred.get ⟨i, hi⟩) dxStep,
    lossSpec alpha gamma (y_pred.get ⟨i, hi⟩) (labels.get ⟨i, hil⟩),
    ?_, lossArray_ok hlen, rfl, lossArray_ok rfl, ?_, ?_, ?_⟩
  · simp only [focal_loss_lgb]
    rw [npBroadcast_eq_len hlen, npBroadcast_eq_len hlen]
    rfl
  · exact zipWith_get _ y_pred labels i hi hil
  · exact zipWith_get _ y_pred labels i hi hil
  · exact zipWith_get _ y_pred labels i hi hil

/-- Witness for C9 on predictions [0, 2], labels [1, 0], index 0. -/
theorem vectorized_matches_per_example_witness :
    ∃ grad hess losses g1 h1 l1,
      focal_loss_lgb [0, 2] ⟨[1, 0]⟩ (1 / 4) 2 = Except.ok (grad, hess) ∧
      lossArray (1 / 4) 2 [0, 2] [1, 0] = Except.ok losses ∧
      focal_loss_lgb [(0 : ℝ)] ⟨[(1 : ℝ)]⟩ (1 / 4) 2 = Except.ok ([g1], [h1]) ∧
      lossArray (1 / 4) 2 [(0 : ℝ)] [(1 : ℝ)] = Except.ok [l1] ∧
      grad[0]? = some g1 ∧ hess[0]? = some h1 ∧ losses[0]? = some l1 :=
  vectorized_matches_per_example [0, 2] [1, 0] (1 / 4) 2 rfl 0 (by norm_num)

end FocalLoss
